import Mathlib

/-!
Verification development for the `lernova-attendsheets` backend
(`sheets-backend/db_manager.py` and `sheets-backend/main.py`).

The development shallow-embeds the attendance-cell parser
(`parse_attendance_value`), the statistics aggregators
(`get_student_stats`, `calculate_class_statistics_from_data`) and the
QR-session state machine (`start_qr_session`, `get_qr_session`,
`scan_qr_code`, `stop_qr_session`, `mark_qr_attendance`, and the
`/qr/scan` endpoint of `main.py`) into Lean, and proves the specified
properties about the embedded definitions.

Conventions used throughout:
* Python runtime values flowing through the parser are embedded as the
  inductive type `PyValue` (no floats appear in the attendance data
  paths that are modelled).
* Python exceptions are embedded with `Except String`.
* Wall-clock timestamps (`datetime.utcnow()`) are embedded as integers;
  each database operation that reads the clock takes the current time as
  an explicit argument.
* The random 8-character code drawn by `_generate_qr_code()` is embedded
  as an explicit `fresh` argument: the generator draws uniformly and
  independently, so any string can be the next draw.
-/

namespace AttendSheets

/-- Embedding of the Python values that can appear in an attendance cell
(`None`, booleans, ints, strings, lists, dicts with string keys). -/
inductive PyValue where
  | none : PyValue
  | bool (b : Bool) : PyValue
  | int (n : Int) : PyValue
  | str (s : String) : PyValue
  | list (xs : List PyValue) : PyValue
  | dict (entries : List (String × PyValue)) : PyValue

/-- Python truthiness (`if value:`): `None`, `False`, `0`, `""`, `[]`
and the empty dict are falsy, everything else modelled here is truthy. -/
def pyTruthy : PyValue → Bool
  | .none => false
  | .bool b => b
  | .int n => n != 0
  | .str s => s != ""
  | .list xs => !xs.isEmpty
  | .dict es => !es.isEmpty

/-- Python `d.get(k)` / `k in d` lookup on a dict: first entry with the
given key, if any. -/
def dictLookup (es : List (String × PyValue)) (k : String) : Option PyValue :=
  (es.find? (fun e => e.fst == k)).map (fun e => e.snd)

/-- Python `v == s` for a string literal `s`: values of a type other
than `str` never compare equal to a string. -/
def pyEqStr (v : PyValue) (s : String) : Bool :=
  match v with
  | .str t => t == s
  | _ => false

/-- Python iteration `for x in v`: lists yield their elements, strings
their characters, dicts their keys; other values raise `TypeError`. -/
def pyIter : PyValue → Except String (List PyValue)
  | .list xs => .ok xs
  | .str s => .ok (s.toList.map (fun c => .str (String.singleton c)))
  | .dict es => .ok (es.map (fun e => .str e.fst))
  | _ => .error "TypeError: object is not iterable"

/-- The normalized count record returned by `parse_attendance_value`.
The fields are `PyValue`s because the legacy `count` field is propagated
into the record unchanged, whatever its runtime type. -/
structure AttendanceCounts where
  present : PyValue
  absent : PyValue
  late : PyValue
  total : PyValue

/-- The all-zero count record `{"present": 0, "absent": 0, "late": 0, "total": 0}`. -/
def zeroCounts : AttendanceCounts := ⟨.int 0, .int 0, .int 0, .int 0⟩

/-- The loop over `sessions` in the new-format branch of
`parse_attendance_value`: for each entry, `session.get("status")`
(raising `AttributeError` when the entry is not a dict); a truthy status
increments `total` and the bucket selected by comparing with
`"P"`/`"A"`/`"L"`. Accumulator order: (present, absent, late, total). -/
def sessionsFold : Int × Int × Int × Int → List PyValue → Except String (Int × Int × Int × Int)
  | acc, [] => .ok acc
  | acc, s :: rest =>
    match s with
    | .dict es =>
      let statusv := (dictLookup es "status").getD .none
      if pyTruthy statusv then
        sessionsFold
          (acc.1 + (if pyEqStr statusv "P" then 1 else 0),
           acc.2.1 + (if pyEqStr statusv "A" then 1 else 0),
           acc.2.2.1 + (if pyEqStr statusv "L" then 1 else 0),
           acc.2.2.2 + 1) rest
      else
        sessionsFold acc rest
    | _ => .error "AttributeError: object has no attribute get"

/-- Embedding of `parse_attendance_value` from `db_manager.py`: ordered dispatch over
the three historical attendance-cell encodings.  Falsy values short out
to the zero record; a dict with a `"sessions"` key iterates the entries
(possibly raising); a dict with a `"status"` key uses the optional
`"count"` (default `1`); a bare string counts one session with the
matching bucket for `"P"`/`"A"`/`"L"`; anything else falls through to
the zero record. -/
def parse_attendance_value (v : PyValue) : Except String AttendanceCounts :=
  if pyTruthy v = false then .ok zeroCounts
  else
    match v with
    | .dict es =>
      match dictLookup es "sessions" with
      | some sv =>
        match pyIter sv with
        | .error e => .error e
        | .ok items =>
          match sessionsFold (0, 0, 0, 0) items with
          | .error e => .error e
          | .ok (p, a, l, t) => .ok ⟨.int p, .int a, .int l, .int t⟩
      | none =>
        match dictLookup es "status" with
        | some statusv =>
          let countv := (dictLookup es "count").getD (.int 1)
          if pyEqStr statusv "P" then .ok ⟨countv, .int 0, .int 0, countv⟩
          else if pyEqStr statusv "A" then .ok ⟨.int 0, countv, .int 0, countv⟩
          else if pyEqStr statusv "L" then .ok ⟨.int 0, .int 0, countv, countv⟩
          else .ok ⟨.int 0, .int 0, .int 0, countv⟩
        | none => .ok zeroCounts
    | .str s =>
      if s == "P" then .ok ⟨.int 1, .int 0, .int 0, .int 1⟩
      else if s == "A" then .ok ⟨.int 0, .int 1, .int 0, .int 1⟩
      else if s == "L" then .ok ⟨.int 0, .int 0, .int 1, .int 1⟩
      else .ok ⟨.int 0, .int 0, .int 0, .int 1⟩
    | _ => .ok zeroCounts

/-- Hypothesis of the bounds claim: whenever the cell is a dict, any
`"count"` entry it carries is a non-negative integer. -/
def CountHyp : PyValue → Prop
  | .dict es => ∀ cv, dictLookup es "count" = some cv → ∃ n : Int, 0 ≤ n ∧ cv = .int n
  | _ => True

/-- Python `acc += counts[field]` with an int accumulator: adding an int
or a bool (Python bools are ints) succeeds; any other operand raises
`TypeError`. -/
def pyAddInt (acc : Int) : PyValue → Except String Int
  | .int n => .ok (acc + n)
  | .bool b => .ok (acc + (if b then 1 else 0))
  | _ => .error "TypeError: unsupported operand"

/-- Python `round(q, 2)` on the rational embedding of the computed
percentage: round half to even at two decimal places. -/
def pyRound2 (q : ℚ) : ℚ :=
  let n : ℤ := ⌊100 * q⌋
  let f : ℚ := 100 * q - n
  (if f < 1/2 then (n : ℚ)
   else if 1/2 < f then (n : ℚ) + 1
   else if n % 2 = 0 then (n : ℚ) else (n : ℚ) + 1) / 100

/-- The `{excellent, good, moderate}` percentage-cutoff configuration. -/
structure Thresholds where
  excellent : ℚ
  good : ℚ
  moderate : ℚ
deriving DecidableEq, Repr

/-- The per-date summation loop shared by `get_student_stats` and
`calculate_class_statistics_from_data`: parse each attendance cell and
add its four counters to the running (present, absent, late, total)
totals; a parse exception or a non-numeric counter propagates. -/
def sumAttendance : Int × Int × Int × Int → List (String × PyValue) →
    Except String (Int × Int × Int × Int)
  | acc, [] => .ok acc
  | acc, (_, v) :: rest =>
    match parse_attendance_value v with
    | .error e => .error e
    | .ok counts => do
      let p ← pyAddInt acc.1 counts.present
      let a ← pyAddInt acc.2.1 counts.absent
      let l ← pyAddInt acc.2.2.1 counts.late
      let t ← pyAddInt acc.2.2.2 counts.total
      sumAttendance (p, a, l, t) rest

/-- The record returned by `get_student_stats`. -/
structure StudentStats where
  total_classes : Int
  present : Int
  absent : Int
  late : Int
  percentage : ℚ
  status : String
deriving DecidableEq, Repr

/-- Embedding of `DatabaseManager.get_student_stats` from `db_manager.py`, its pure
core: the function body once the `ClassStudent` row has been fetched,
taking the row's `attendance` dict and the optional thresholds
(`if not thresholds:` installs the 95/90/85 defaults).  The enclosing
`try/except` turns any exception raised while parsing or summing into
the all-zero record with status `"good"`. -/
def get_student_stats (attendance_data : List (String × PyValue))
    (thresholds : Option Thresholds) : StudentStats :=
  match sumAttendance (0, 0, 0, 0) attendance_data with
  | .error _ => ⟨0, 0, 0, 0, 0, "good"⟩
  | .ok (present, absent, late, total) =>
    let percentage : ℚ :=
      if 0 < total then ((present : ℚ) + (late : ℚ)) / (total : ℚ) * 100 else 0
    let thr := thresholds.getD ⟨95, 90, 85⟩
    let st :=
      if thr.excellent ≤ percentage then "excellent"
      else if thr.good ≤ percentage then "good"
      else if thr.moderate ≤ percentage then "moderate"
      else "at-risk"
    ⟨total, present, absent, late, pyRound2 percentage, st⟩

/-- One roster entry of the `class_data` dictionary consumed by
`calculate_class_statistics_from_data`: `student.get("attendance", {})`. -/
structure StudentData where
  attendance : List (String × PyValue)

/-- The `class_data` dictionary: `students` list and optional
`thresholds` (`class_data.get("thresholds", defaults)`). -/
structure ClassData where
  students : List StudentData
  thresholds : Option Thresholds

/-- The record returned by `calculate_class_statistics_from_data`. -/
structure ClassStatistics where
  totalStudents : Nat
  avgAttendance : ℚ
  excellentCount : Nat
  atRiskCount : Nat
  totalPresent : Int
  totalAbsent : Int
  totalLate : Int
  totalSessions : Int
deriving DecidableEq, Repr

/-- The per-student loop of `calculate_class_statistics_from_data`:
accumulate the class-wide (present, absent, late, sessions) totals and
the two classification counters.  A student with `student_total > 0` is
counted `excellent` when their percentage reaches
`thresholds.excellent` and `at-risk` when it falls below
`thresholds.moderate`; students with no parsed sessions are not
classified. -/
def classFold (thr : Thresholds) :
    Int × Int × Int × Int × Nat × Nat → List StudentData →
    Except String (Int × Int × Int × Int × Nat × Nat)
  | acc, [] => .ok acc
  | acc, stu :: rest =>
    match sumAttendance (0, 0, 0, 0) stu.attendance with
    | .error e => .error e
    | .ok (sp, sa, sl, stot) =>
      let (tp, ta, tl, ts, ec, ar) := acc
      let (ec2, ar2) :=
        if 0 < stot then
          let pct : ℚ := ((sp : ℚ) + (sl : ℚ)) / (stot : ℚ) * 100
          if thr.excellent ≤ pct then (ec + 1, ar)
          else if pct < thr.moderate then (ec, ar + 1)
          else (ec, ar)
        else (ec, ar)
      classFold thr (tp + sp, ta + sa, tl + sl, ts + stot, ec2, ar2) rest

/-- Embedding of `DatabaseManager.calculate_class_statistics_from_data` from
`db_manager.py`: an empty roster returns the all-zero record; otherwise
fold the roster with `classFold` and compute the class average
`(total_present + total_late) / total_sessions * 100` (zero when no
sessions), rounded to two decimal places for display.  Exceptions
raised while parsing propagate (there is no `try/except` here). -/
def calculate_class_statistics_from_data (class_data : ClassData) :
    Except String ClassStatistics :=
  let students := class_data.students
  let thr := class_data.thresholds.getD ⟨95, 90, 85⟩
  if students.isEmpty then .ok ⟨0, 0, 0, 0, 0, 0, 0, 0⟩
  else
    match classFold thr (0, 0, 0, 0, 0, 0) students with
    | .error e => .error e
    | .ok (tp, ta, tl, ts, ec, ar) =>
      let avg : ℚ := if 0 < ts then ((tp : ℚ) + (tl : ℚ)) / (ts : ℚ) * 100 else 0
      .ok ⟨students.length, pyRound2 avg, ec, ar, tp, ta, tl, ts⟩

/-- One row of the `qr_sessions` table (`models.QRSession`).  Timestamps
are integers (seconds); `status` is the literal string stored by the
code (`"active"` / `"completed"`). -/
structure QRSession where
  class_id : Int
  teacher_id : String
  date : String
  session_number : Int
  started_at : Int
  rotation_interval : Int
  current_code : String
  code_generated_at : Int
  scanned_students : List String
  status : String
deriving DecidableEq, Repr

/-- The `qr_sessions` table, in insertion order (`db.add` appends;
`query(...).first()` returns the first match in this order). -/
abbrev QRState := List QRSession

/-- The filter used by `get_qr_session` / `scan_qr_code` /
`mark_qr_attendance` and the conflict check of `start_qr_session`:
matching `class_id`, `date` and `status == "active"`. -/
def isActiveFor (c : Int) (d : String) (s : QRSession) : Bool :=
  s.class_id == c && s.date == d && s.status == "active"

/-- The filter of `stop_qr_session`, which additionally requires
`teacher_id == user_id` (the ownership check). -/
def isOwnedActiveFor (c : Int) (u d : String) (s : QRSession) : Bool :=
  s.class_id == c && s.date == d && s.teacher_id == u && s.status == "active"

/-- In-place mutation of the row returned by `query(...).first()`
followed by `commit()`: rewrite the first list element satisfying `p`
with `f`, leaving everything else untouched. -/
def updateFirst (p : QRSession → Bool) (f : QRSession → QRSession) :
    List QRSession → List QRSession
  | [] => []
  | s :: rest => if p s then f s :: rest else s :: updateFirst p f rest

/-- Embedding of `DatabaseManager.start_qr_session`: refuse (raising
`ValueError("Active QR session already exists for this date")`) when an
active session for (class_id, date) exists; otherwise insert a new
session whose `session_number` is the count of all existing sessions
for that (class_id, date) plus one.  `t` is the clock reading
(`started_at` and `code_generated_at` column defaults) and `fresh` the
code drawn by `_generate_qr_code()`. -/
def start_qr_session (class_id : Int) (teacher_id date : String)
    (rotation_interval : Int) (t : Int) (fresh : String) (st : QRState) :
    Except String (QRSession × QRState) :=
  match st.find? (isActiveFor class_id date) with
  | some _ => .error "Active QR session already exists for this date"
  | none =>
    let session_count := (st.filter (fun s => s.class_id == class_id && s.date == date)).length
    let qr : QRSession :=
      ⟨class_id, teacher_id, date, (session_count : Int) + 1, t,
        rotation_interval, fresh, t, [], "active"⟩
    .ok (qr, st ++ [qr])

/-- Embedding of `DatabaseManager.get_qr_session`: return the active session for
(class_id, date) if any; when `now - code_generated_at >=
rotation_interval`, first rotate `current_code` to the freshly drawn
`fresh` and reset `code_generated_at` to the current time `t`,
persisting the change.  Returns the (possibly rotated) record and the
new table state. -/
def get_qr_session (class_id : Int) (date : String) (t : Int) (fresh : String)
    (st : QRState) : Option QRSession × QRState :=
  match st.find? (isActiveFor class_id date) with
  | none => (none, st)
  | some s =>
    if s.rotation_interval ≤ t - s.code_generated_at then
      let s2 := { s with current_code := fresh, code_generated_at := t }
      (some s2, updateFirst (isActiveFor class_id date) (fun _ => s2) st)
    else
      (some s, st)

/-- Helper for `pyInt?`: accumulate decimal digits, failing on the
first non-digit character. -/
def digitsToNat : Nat → List Char → Option Nat
  | acc, [] => some acc
  | acc, c :: cs => if c.isDigit then digitsToNat (acc * 10 + (c.toNat - 48)) cs else none

/-- Python `int(s)` on a decimal string (with optional leading minus):
`some` of the value, or `none` for the `ValueError` raised on a
malformed literal. -/
def pyInt? (s : String) : Option Int :=
  match s.data with
  | [] => none
  | '-' :: cs => if cs.isEmpty then none else (digitsToNat 0 cs).map (fun n => -(n : Int))
  | cs => (digitsToNat 0 cs).map (fun n => (n : Int))

/-- The result dict of `DatabaseManager.scan_qr_code`. -/
structure ScanResult where
  success : Bool
  message : String
deriving DecidableEq, Repr

/-- Embedding of `DatabaseManager.scan_qr_code`: convert `class_id` with `int()`
(a failed conversion raises and is reported as a failure by the
enclosing `except`), look up the active session, compare the passed
`qr_code` string with `current_code`, dedupe on `scanned_students`,
and otherwise append the student and commit.  Two source behaviours are
reflected faithfully: the function never reads the clock (code expiry
happens only through rotation in `get_qr_session`), and the append is
actually written only when the loaded `scanned_students` list was
empty.  The source does `scanned = session.scanned_students or [];
scanned.append(...); session.scanned_students = scanned; db.commit()`
on a plain `Column(JSON)` with no `flag_modified` (which the same file
uses elsewhere, with a comment, exactly to make JSON changes visible):
when the loaded list is non-empty, `scanned` is the very same
already-mutated object, SQLAlchemy records no change, and the commit
emits no UPDATE — the append is lost.  Only when the loaded list is
empty does `or []` build a fresh object whose assignment is detected
and persisted. -/
def scan_qr_code (student_id class_id qr_code date : String) (st : QRState) :
    ScanResult × QRState :=
  match pyInt? class_id with
  | none => (⟨false, "invalid literal for int()"⟩, st)
  | some cid =>
    match st.find? (isActiveFor cid date) with
    | none => (⟨false, "No active QR session"⟩, st)
    | some s =>
      if s.current_code != qr_code then
        (⟨false, "Invalid or expired QR code"⟩, st)
      else if s.scanned_students.contains student_id then
        (⟨false, "Already scanned"⟩, st)
      else
        (⟨true, "Attendance marked successfully"⟩,
         if s.scanned_students.isEmpty then
           updateFirst (isActiveFor cid date)
             (fun x => { x with scanned_students := x.scanned_students ++ [student_id] }) st
         else st)

/-- Embedding of `DatabaseManager.scan_qr_code` as it behaves when invoked at
wall-clock time `t`: the Python function never calls
`datetime.utcnow()`, so its result is independent of `t`. -/
def scan_qr_code_at (_t : Int) (student_id class_id qr_code date : String)
    (st : QRState) : ScanResult × QRState :=
  scan_qr_code student_id class_id qr_code date st

/-- The result dict of `DatabaseManager.stop_qr_session`: the failure
shape `{"success": False, "message": ...}` or the summary shape
`{"success": True, "scanned_count": ..., "scanned_students": ...}`. -/
inductive StopResult where
  | failure (message : String)
  | summary (scanned_count : Nat) (scanned_students : List String)
deriving DecidableEq, Repr

/-- Embedding of `DatabaseManager.stop_qr_session`: find the active session for
(class_id, date) owned by `user_id` (the `teacher_id == user_id` filter
is the security check); when none matches return the failure dict and
leave the table untouched; otherwise flip `status` to `"completed"` and
return the scan summary. -/
def stop_qr_session (class_id : Int) (user_id date : String) (st : QRState) :
    StopResult × QRState :=
  match st.find? (isOwnedActiveFor class_id user_id date) with
  | none => (.failure "No active session found", st)
  | some s =>
    (.summary s.scanned_students.length s.scanned_students,
     updateFirst (isOwnedActiveFor class_id user_id date)
       (fun x => { x with status := "completed" }) st)

/-- Embedding of `DatabaseManager.mark_qr_attendance`: append the student to the
active session's `scanned_students` unless already present; raises
`ValueError` when no active session exists.  The append follows the
same in-place-mutation pattern as `scan_qr_code` — plain JSON column,
same list object reassigned, no `flag_modified` — so it is persisted
only when the loaded list was empty. -/
def mark_qr_attendance (class_id : Int) (date student_user_id : String)
    (st : QRState) : Except String (Bool × QRState) :=
  match st.find? (isActiveFor class_id date) with
  | none => .error "No active QR session found"
  | some s =>
    if s.scanned_students.contains student_user_id then .ok (true, st)
    else
      .ok (true,
        if s.scanned_students.isEmpty then
          updateFirst (isActiveFor class_id date)
            (fun x => { x with scanned_students := x.scanned_students ++ [student_user_id] }) st
        else st)

/-- The decoded QR payload of the `/qr/scan` endpoint:
`json.loads(qr_code)` yields `{"date": ..., "class_id": ..., "code": ...}`. -/
structure QRPayload where
  date : String
  class_id : String
  code : String
deriving DecidableEq, Repr

/-- The raw JSON text of a QR payload (the `qr_code` request parameter
whose `json.loads` yields the three fields).  Key order is the one the
client emits; the only property the proofs use is that the text is a
brace-delimited JSON object, not a bare 8-character code. -/
def encodePayload (p : QRPayload) : String :=
  "\x7b\"date\": \"" ++ p.date ++ "\", \"class_id\": \"" ++ p.class_id ++
    "\", \"code\": \"" ++ p.code ++ "\"\x7d"

/-- The `/qr/scan` endpoint of `main.py` after authentication and
student lookup: decode the payload, reject a `class_id` mismatch with
`ValueError` (HTTP 400), then call `db.scan_qr_code(student_id,
class_id, qr_code, date)` — passing the raw JSON string `qr_code`, not
the extracted `code` field (`qr_code_value` is computed but unused). -/
def scan_qr_code_endpoint (student_id class_id : String) (p : QRPayload)
    (st : QRState) : Except String (ScanResult × QRState) :=
  if p.class_id != class_id then .error "QR code is for a different class"
  else .ok (scan_qr_code student_id class_id (encodePayload p) p.date st)

/-- The operations of the repository that read or write the
`qr_sessions` table, with their clock readings and random draws made
explicit.  `deleteClasses` is the cascade in `delete_user` that removes
every QR session of the deleted classes. -/
inductive QROp where
  | start (class_id : Int) (teacher_id date : String) (rotation_interval t : Int) (fresh : String)
  | get (class_id : Int) (date : String) (t : Int) (fresh : String)
  | scan (student_id class_id qr_code date : String)
  | stop (class_id : Int) (user_id date : String)
  | mark (class_id : Int) (date student_user_id : String)
  | deleteClasses (class_ids : List Int)

/-- The table state after one operation (results discarded). -/
def qrStep (st : QRState) : QROp → QRState
  | .start c teacher d r t fresh =>
    match start_qr_session c teacher d r t fresh st with
    | .ok (_, st2) => st2
    | .error _ => st
  | .get c d t fresh => (get_qr_session c d t fresh st).2
  | .scan stu c qr d => (scan_qr_code stu c qr d st).2
  | .stop c u d => (stop_qr_session c u d st).2
  | .mark c d stu =>
    match mark_qr_attendance c d stu st with
    | .ok (_, st2) => st2
    | .error _ => st
  | .deleteClasses ids => st.filter (fun s => !ids.contains s.class_id)

/-- The table state after a sequence of operations, starting empty. -/
def qrRun (ops : List QROp) : QRState :=
  ops.foldl qrStep ([] : QRState)

/-- The single-active-session invariant: at most one row per
(class_id, date) has `status == "active"`. -/
def AtMostOneActive (st : QRState) : Prop :=
  ∀ c d, st.countP (isActiveFor c d) ≤ 1

/-- A single-session attendance cell with the given status letter. -/
def sessionMark (s : String) : PyValue := .dict [("status", .str s)]

/-- An attendance history holding one multi-session cell with the given
numbers of `P` and `A` session entries. -/
def historyPA (p a : Nat) : List (String × PyValue) :=
  [("2024-01-15", .dict [("sessions",
      .list (List.replicate p (sessionMark "P") ++ List.replicate a (sessionMark "A")))])]

end AttendSheets

namespace AttendSheets

/-! ### Helper lemmas about `updateFirst`, `find?` and `countP` -/

theorem countP_updateFirst_eq (p q : QRSession → Bool) (f : QRSession → QRSession)
    (h : ∀ x, p x = true → q (f x) = q x) (l : List QRSession) :
    (updateFirst p f l).countP q = l.countP q := by
  induction l with
  | nil => rfl
  | cons s rest ih =>
    by_cases hp : p s
    · simp [updateFirst, hp, List.countP_cons, h s hp]
    · simp [updateFirst, hp, List.countP_cons, ih]

theorem countP_updateFirst_le (p q : QRSession → Bool) (f : QRSession → QRSession)
    (h : ∀ x, q (f x) = true → q x = true) (l : List QRSession) :
    (updateFirst p f l).countP q ≤ l.countP q := by
  induction l with
  | nil => exact le_refl _
  | cons s rest ih =>
    by_cases hp : p s
    · simp only [updateFirst, hp, if_pos, List.countP_cons]
      by_cases hq : q (f s)
      · simp [hq, h s hq]
      · simp only [hq, if_neg, Bool.false_eq_true, not_false_iff, ite_false]
        omega
    · simp only [updateFirst, hp, if_neg, Bool.false_eq_true, not_false_iff, List.countP_cons]
      omega

theorem countP_eq_zero_of_find?_none {p : QRSession → Bool} {l : List QRSession}
    (h : l.find? p = none) : l.countP p = 0 :=
  List.countP_eq_zero.mpr (by simpa using List.find?_eq_none.mp h)

theorem find?_updateFirst (p : QRSession → Bool) (f : QRSession → QRSession)
    (l : List QRSession) (s : QRSession) (hfind : l.find? p = some s)
    (hf : p (f s) = true) : (updateFirst p f l).find? p = some (f s) := by
  induction l with
  | nil => simp at hfind
  | cons x rest ih =>
    by_cases hp : p x
    · rw [List.find?_cons_of_pos _ hp] at hfind
      cases hfind
      simp [updateFirst, hp, List.find?_cons_of_pos _ hf]
    · rw [List.find?_cons_of_neg _ hp] at hfind
      simp [updateFirst, hp, List.find?_cons_of_neg _ hp, ih hfind]

theorem contains_eq_false_of_not_mem (a : String) (l : List String) (h : a ∉ l) :
    l.contains a = false := by
  simpa using h

theorem isActiveFor_spec {c : Int} {d : String} {s : QRSession}
    (h : isActiveFor c d s = true) :
    s.class_id = c ∧ s.date = d ∧ s.status = "active" := by
  simpa [isActiveFor, Bool.and_eq_true, beq_iff_eq, and_assoc] using h

theorem isOwnedActiveFor_spec {c : Int} {u d : String} {s : QRSession}
    (h : isOwnedActiveFor c u d s = true) :
    s.class_id = c ∧ s.date = d ∧ s.teacher_id = u ∧ s.status = "active" := by
  simpa [isOwnedActiveFor, Bool.and_eq_true, beq_iff_eq, and_assoc] using h

theorem isOwnedActiveFor_of {c : Int} {u d : String} {s : QRSession}
    (h1 : s.class_id = c) (h2 : s.date = d) (h3 : s.teacher_id = u)
    (h4 : s.status = "active") : isOwnedActiveFor c u d s = true := by
  simp [isOwnedActiveFor, h1, h2, h3, h4]

/-- Rotation branch of `get_qr_session`, packaged for reuse: when the
elapsed time reaches the interval, the returned record carries the
fresh code and the reset timestamp, and the table is updated in place. -/
theorem get_qr_session_rotates (c : Int) (d : String) (t : Int) (fresh : String)
    (st : QRState) (s : QRSession) (hs : st.find? (isActiveFor c d) = some s)
    (hrot : s.rotation_interval ≤ t - s.code_generated_at) :
    get_qr_session c d t fresh st =
      (some { s with current_code := fresh, code_generated_at := t },
       updateFirst (isActiveFor c d)
         (fun _ => { s with current_code := fresh, code_generated_at := t }) st) := by
  simp only [get_qr_session, hs]
  rw [if_pos hrot]

/-- A concrete active session used by the concrete-input theorems:
class 1, date 2024-01-15, rotation interval 5 seconds, current code
`"AAAA1111"` generated at time 0, nobody scanned yet. -/
def session0 : QRSession :=
  ⟨1, "T1", "2024-01-15", 1, 0, 5, "AAAA1111", 0, [], "active"⟩

/-- C1: the claim says that a scan whose payload decodes to the
session's date, the target class_id and the session's `current_code`
succeeds and appends the student.  The code violates this: the `/qr/scan`
endpoint passes the raw JSON payload string — not the extracted `code`
field — to `DatabaseManager.scan_qr_code`, which compares it with the
8-character `current_code`; the comparison always fails, so the scan is
rejected as "Invalid or expired QR code" and `scanned_students` is left
unchanged even for a perfectly matching payload. -/
theorem c1_endpoint_rejects_matching_payload :
    scan_qr_code_endpoint "stu1" "1" ⟨"2024-01-15", "1", "AAAA1111"⟩ [session0] =
      .ok (⟨false, "Invalid or expired QR code"⟩, [session0]) := rfl

/-- C2 counterexample: `DatabaseManager.scan_qr_code` never reads the
clock, so a code generated at time 0 with `rotation_interval = 5` is
still accepted by a scan occurring at time 100 — far outside the
claimed validity window `[0, 5)` — as long as no intervening `get` call
rotated it.  This refutes "at any later time the same code value is
rejected". -/
theorem c2_counterexample_scan_after_window :
    session0.code_generated_at + session0.rotation_interval ≤ 100 ∧
    (scan_qr_code_at 100 "stu2" "1" "AAAA1111" "2024-01-15" [session0]).1 =
      ⟨true, "Attendance marked successfully"⟩ :=
  ⟨by norm_num [session0], rfl⟩

/-- C2 (amended): a scan redeems a code value only when it equals the
session's `current_code` at scan time (and the student has not scanned
yet); the code value expires only through rotation, performed by the
first `get` call at a time `t` with `t - code_generated_at >=
rotation_interval`: after such a `get` (whose fresh random draw differs
from the old code), a scan presenting the old code value is rejected.
Scan itself performs no time check, so without an intervening `get` an
old code value remains redeemable. -/
theorem c2_scan_accepts_only_current_code :
    (∀ (student cls qr d : String) (st : QRState),
        (scan_qr_code student cls qr d st).1.success = true →
        ∃ cid s, pyInt? cls = some cid ∧ st.find? (isActiveFor cid d) = some s ∧
          s.current_code = qr ∧ student ∉ s.scanned_students) ∧
    (∀ (c : Int) (d : String) (t : Int) (fresh : String) (st : QRState) (s : QRSession)
        (student cls : String),
        pyInt? cls = some c →
        st.find? (isActiveFor c d) = some s →
        s.rotation_interval ≤ t - s.code_generated_at →
        fresh ≠ s.current_code →
        (scan_qr_code student cls s.current_code d
            (get_qr_session c d t fresh st).2).1 =
          ⟨false, "Invalid or expired QR code"⟩) := by
  constructor
  · intro student cls qr d st h
    unfold scan_qr_code at h
    cases hcid : pyInt? cls with
    | none => simp only [hcid] at h; simp at h
    | some cid =>
      simp only [hcid] at h
      cases hs : st.find? (isActiveFor cid d) with
      | none => simp only [hs] at h; simp at h
      | some s =>
        simp only [hs] at h
        by_cases hcode : s.current_code != qr
        · rw [if_pos hcode] at h; simp at h
        · rw [if_neg hcode] at h
          by_cases hmem : s.scanned_students.contains student
          · rw [if_pos hmem] at h; simp at h
          · refine ⟨cid, s, rfl, hs, ?_, ?_⟩
            · simpa [bne_iff_ne] using hcode
            · simpa using hmem
  · intro c d t fresh st s student cls hcid hs hrot hne
    rw [get_qr_session_rotates c d t fresh st s hs hrot]
    have hfind2 : (updateFirst (isActiveFor c d)
        (fun _ => { s with current_code := fresh, code_generated_at := t }) st).find?
          (isActiveFor c d) =
        some { s with current_code := fresh, code_generated_at := t } :=
      find?_updateFirst (isActiveFor c d)
        (fun _ => { s with current_code := fresh, code_generated_at := t }) st s hs
        (by have h0 := List.find?_some hs; exact h0)
    unfold scan_qr_code
    simp only [hcid, hfind2]
    have hbne : ({ s with current_code := fresh, code_generated_at := t} :
        QRSession).current_code != s.current_code := by
      simpa [bne_iff_ne] using hne
    rw [if_pos hbne]

/-- C2 amended-claim witness: on the concrete session `session0`
(code `"AAAA1111"` generated at 0, interval 5), after a `get` at time 10
draws `"BBBB2222"`, scanning the old code `"AAAA1111"` is rejected. -/
theorem c2_witness :
    (scan_qr_code "stu3" "1" session0.current_code "2024-01-15"
        (get_qr_session 1 "2024-01-15" 10 "BBBB2222" [session0]).2).1 =
      ⟨false, "Invalid or expired QR code"⟩ :=
  c2_scan_accepts_only_current_code.2 1 "2024-01-15" 10 "BBBB2222" [session0] session0
    "stu3" "1" rfl rfl (by norm_num [session0]) (by decide)

/-- C7 counterexample: the rotated code is drawn uniformly at random
with no check against the previous code, so the first `get` past the
window is not guaranteed to return a different code: if the fresh draw
coincides with the old code (here both `"AAAA1111"`), the returned
`current_code` is unchanged even though rotation occurred. -/
theorem c7_counterexample_same_draw :
    session0.code_generated_at + session0.rotation_interval ≤ 100 ∧
    (get_qr_session 1 "2024-01-15" 100 "AAAA1111" [session0]).1.map
        QRSession.current_code = some session0.current_code :=
  ⟨by norm_num [session0], rfl⟩

/-- C7 (amended): for an active session found for (class_id, date), a
`get` at a time with `t - code_generated_at < rotation_interval`
returns the session record with its code unchanged and leaves the table
untouched (hence every further `get` before the boundary does the
same); the first `get` at `t` with `t - code_generated_at >=
rotation_interval` resets `code_generated_at` to `t` and replaces
`current_code` with the freshly drawn random code, persisting the
change — the returned code differs from the previous one whenever the
fresh draw differs, which the generator does not enforce. -/
theorem c7_rotation_bound :
    ∀ (c : Int) (d : String) (t : Int) (fresh : String) (st : QRState) (s : QRSession),
      st.find? (isActiveFor c d) = some s →
      ((t - s.code_generated_at < s.rotation_interval →
          get_qr_session c d t fresh st = (some s, st)) ∧
       (s.rotation_interval ≤ t - s.code_generated_at →
          ∃ s2, (get_qr_session c d t fresh st).1 = some s2 ∧
            s2.current_code = fresh ∧ s2.code_generated_at = t ∧
            (get_qr_session c d t fresh st).2.find? (isActiveFor c d) = some s2 ∧
            (fresh ≠ s.current_code → s2.current_code ≠ s.current_code))) := by
  intro c d t fresh st s hs
  constructor
  · intro hlt
    simp only [get_qr_session, hs]
    rw [if_neg (by omega)]
  · intro hrot
    rw [get_qr_session_rotates c d t fresh st s hs hrot]
    exact ⟨{ s with current_code := fresh, code_generated_at := t }, rfl, rfl, rfl,
      find?_updateFirst (isActiveFor c d)
        (fun _ => { s with current_code := fresh, code_generated_at := t }) st s hs
        (by have h0 := List.find?_some hs; exact h0),
      fun hne => hne⟩

/-- C7 witness: on `session0` (interval 5, code generated at 0), a
`get` at time 3 returns the record and table unchanged; a `get` at time
10 with fresh draw `"CCCC3333"` returns a rotated record with the new
code and timestamp 10, persisted. -/
theorem c7_witness :
    (get_qr_session 1 "2024-01-15" 3 "CCCC3333" [session0] = (some session0, [session0])) ∧
    (∃ s2, (get_qr_session 1 "2024-01-15" 10 "CCCC3333" [session0]).1 = some s2 ∧
      s2.current_code = "CCCC3333" ∧ s2.code_generated_at = 10 ∧
      (get_qr_session 1 "2024-01-15" 10 "CCCC3333" [session0]).2.find?
        (isActiveFor 1 "2024-01-15") = some s2 ∧
      ("CCCC3333" ≠ session0.current_code → s2.current_code ≠ session0.current_code)) :=
  ⟨(c7_rotation_bound 1 "2024-01-15" 3 "CCCC3333" [session0] session0 rfl).1
      (by norm_num [session0]),
   (c7_rotation_bound 1 "2024-01-15" 10 "CCCC3333" [session0] session0 rfl).2
      (by norm_num [session0])⟩

theorem countP_singleton_active_eq (c : Int) (d teacher : String)
    (n startt r : Int) (code : String) (g : Int) (scanned : List String) :
    List.countP (isActiveFor c d)
      [(⟨c, teacher, d, n, startt, r, code, g, scanned, "active"⟩ : QRSession)] = 1 := by
  simp [isActiveFor, List.countP_cons]

theorem countP_singleton_active_ne (c0 c : Int) (d0 d : String)
    (hcd : ¬(c0 = c ∧ d0 = d)) (teacher : String) (n startt r : Int)
    (code : String) (g : Int) (scanned : List String) :
    List.countP (isActiveFor c d)
      [(⟨c0, teacher, d0, n, startt, r, code, g, scanned, "active"⟩ : QRSession)] = 0 := by
  rcases not_and_or.mp hcd with h1 | h1 <;> simp [isActiveFor, List.countP_cons, h1]

/-- Every repository operation that touches the `qr_sessions` table
preserves the at-most-one-active-session invariant. -/
theorem qrStep_preserves_AtMostOneActive (st : QRState) (op : QROp)
    (h : AtMostOneActive st) : AtMostOneActive (qrStep st op) := by
  cases op with
  | start c0 teacher d0 r t fresh =>
    intro c d
    cases hfind : st.find? (isActiveFor c0 d0) with
    | some s => simp only [qrStep, start_qr_session, hfind]; exact h c d
    | none =>
      simp only [qrStep, start_qr_session, hfind]
      rw [List.countP_append]
      by_cases hcd : c0 = c ∧ d0 = d
      · obtain ⟨rfl, rfl⟩ := hcd
        rw [countP_eq_zero_of_find?_none hfind, countP_singleton_active_eq]
      · rw [countP_singleton_active_ne c0 c d0 d hcd]
        simpa using h c d
  | get c0 d0 t fresh =>
    intro c d
    cases hfind : st.find? (isActiveFor c0 d0) with
    | none => simp only [qrStep, get_qr_session, hfind]; exact h c d
    | some s =>
      obtain ⟨hc1, hc2, hc3⟩ := isActiveFor_spec (List.find?_some hfind)
      simp only [qrStep, get_qr_session, hfind]
      split
      · dsimp only
        rw [countP_updateFirst_eq]
        · exact h c d
        · intro x hpx
          obtain ⟨hx1, hx2, hx3⟩ := isActiveFor_spec hpx
          simp [isActiveFor, hc1, hc2, hc3, hx1, hx2, hx3]
      · exact h c d
  | scan stu cls qr d0 =>
    intro c d
    cases hcid : pyInt? cls with
    | none => simp only [qrStep, scan_qr_code, hcid]; exact h c d
    | some cid =>
      cases hfind : st.find? (isActiveFor cid d0) with
      | none => simp only [qrStep, scan_qr_code, hcid, hfind]; exact h c d
      | some s =>
        simp only [qrStep, scan_qr_code, hcid, hfind]
        split
        · exact h c d
        · split
          · exact h c d
          · dsimp only
            split
            · rw [countP_updateFirst_eq (isActiveFor cid d0) (isActiveFor c d)
                (fun x => { x with scanned_students := x.scanned_students ++ [stu] })
                (fun x _ => rfl)]
              exact h c d
            · exact h c d
  | stop c0 u d0 =>
    intro c d
    cases hfind : st.find? (isOwnedActiveFor c0 u d0) with
    | none => simp only [qrStep, stop_qr_session, hfind]; exact h c d
    | some s =>
      simp only [qrStep, stop_qr_session, hfind]
      refine le_trans (countP_updateFirst_le _ _ _ ?_ st) (h c d)
      intro x hx
      simp [isActiveFor] at hx
  | mark c0 d0 stu =>
    intro c d
    cases hfind : st.find? (isActiveFor c0 d0) with
    | none => simp only [qrStep, mark_qr_attendance, hfind]; exact h c d
    | some s =>
      simp only [qrStep, mark_qr_attendance, hfind]
      by_cases hct : s.scanned_students.contains stu
      · simp only [if_pos hct]
        exact h c d
      · simp only [if_neg hct]
        by_cases hemp : s.scanned_students.isEmpty
        · simp only [if_pos hemp]
          rw [countP_updateFirst_eq (isActiveFor c0 d0) (isActiveFor c d)
            (fun x => { x with scanned_students := x.scanned_students ++ [stu] })
            (fun x _ => rfl)]
          exact h c d
        · simp only [if_neg hemp]
          exact h c d
  | deleteClasses ids =>
    intro c d
    simp only [qrStep]
    exact le_trans ((List.filter_sublist st).countP_le _) (h c d)

/-- The invariant holds in every state reachable from the empty table. -/
theorem qrRun_AtMostOneActive (ops : List QROp) : AtMostOneActive (qrRun ops) := by
  have key : ∀ (ops2 : List QROp) (st : QRState), AtMostOneActive st →
      AtMostOneActive (ops2.foldl qrStep st) := by
    intro ops2
    induction ops2 with
    | nil => intro st hst; exact hst
    | cons op rest ih =>
      intro st hst
      exact ih _ (qrStep_preserves_AtMostOneActive st op hst)
  exact key ops [] (fun c d => by simp)

/-- C3: starting twice for the same (class_id, date) without an
intervening stop succeeds once — leaving exactly one active session for
that key — and the second call fails with the conflict error
`"Active QR session already exists for this date"`; moreover, starting
from an empty table, at most one active QRSession per (class_id, date)
exists after any sequence of start/get/scan/stop/mark/delete
operations. -/
theorem c3_single_active_session :
    (∀ (c : Int) (teacher d : String) (r t : Int) (fresh teacher2 : String)
        (r2 t2 : Int) (fresh2 : String) (st : QRState),
        st.find? (isActiveFor c d) = none →
        ∃ s1 st1, start_qr_session c teacher d r t fresh st = .ok (s1, st1) ∧
          st1.countP (isActiveFor c d) = 1 ∧
          start_qr_session c teacher2 d r2 t2 fresh2 st1 =
            .error "Active QR session already exists for this date") ∧
    (∀ ops : List QROp, AtMostOneActive (qrRun ops)) := by
  constructor
  · intro c teacher d r t fresh teacher2 r2 t2 fresh2 st hnone
    simp only [start_qr_session, hnone]
    refine ⟨_, _, rfl, ?_, ?_⟩
    · rw [List.countP_append, countP_eq_zero_of_find?_none hnone,
        countP_singleton_active_eq]
    · rw [List.find?_append, hnone]
      simp [List.find?_cons, isActiveFor]
  · exact qrRun_AtMostOneActive

/-- C3 witness: a concrete double start on the empty table for class 1,
date 2024-01-15: the first call succeeds with one active session, the
second reports the conflict. -/
theorem c3_witness :
    ∃ s1 st1, start_qr_session 1 "T1" "2024-01-15" 5 0 "AAAA1111" [] = .ok (s1, st1) ∧
      st1.countP (isActiveFor 1 "2024-01-15") = 1 ∧
      start_qr_session 1 "T2" "2024-01-15" 7 3 "BBBB2222" st1 =
        .error "Active QR session already exists for this date" :=
  c3_single_active_session.1 1 "T1" "2024-01-15" 5 0 "AAAA1111" "T2" 7 3 "BBBB2222" [] rfl

/-- A concrete active session that already holds one persisted scanner
`"stuX"` (class 1, date 2024-01-15, current code `"AAAA1111"`). -/
def session1 : QRSession :=
  ⟨1, "T1", "2024-01-15", 1, 0, 5, "AAAA1111", 0, ["stuX"], "active"⟩

/-- C4: the claim — scanning twice with the same valid code leaves the
student contained exactly once and the second call reports "Already
scanned" — fails on the code for every student who is not the first
scanner.  `scan_qr_code` mutates the loaded JSON list in place and
reassigns the same object to a plain `Column(JSON)` with no
`flag_modified` (which the same file uses elsewhere, with an
explanatory comment, for exactly this), so the append to a non-empty
`scanned_students` is never written.  With `"stuX"` already on record,
student `"stuY"`'s first valid scan reports success yet changes
nothing, the second identical scan again reports success — not
"Already scanned" — and `scanned_students` contains `"stuY"` zero
times, not once. -/
theorem c4_lost_append_second_scan_succeeds :
    (scan_qr_code "stuY" "1" "AAAA1111" "2024-01-15" [session1]).1 =
      ⟨true, "Attendance marked successfully"⟩ ∧
    (scan_qr_code "stuY" "1" "AAAA1111" "2024-01-15" [session1]).2 = [session1] ∧
    scan_qr_code "stuY" "1" "AAAA1111" "2024-01-15"
        (scan_qr_code "stuY" "1" "AAAA1111" "2024-01-15" [session1]).2 =
      (⟨true, "Attendance marked successfully"⟩, [session1]) ∧
    session1.scanned_students.count "stuY" = 0 :=
  ⟨rfl, rfl, rfl, rfl⟩

/-- C9: `stop` returns the scan summary exactly when the table holds an
active session for (class_id, date) whose `teacher_id` equals the
caller; when no such row exists — no active session at all, or one
owned by a different teacher — it returns the failure result and leaves
the table, hence the session's status and `scanned_students`, entirely
unchanged. -/
theorem c9_stop_ownership :
    ∀ (c : Int) (u d : String) (st : QRState),
      ((∃ n ss, (stop_qr_session c u d st).1 = .summary n ss) ↔
        ∃ s, s ∈ st ∧ s.class_id = c ∧ s.date = d ∧ s.teacher_id = u ∧
          s.status = "active") ∧
      ((∀ s, s ∈ st → ¬(s.class_id = c ∧ s.date = d ∧ s.teacher_id = u ∧
          s.status = "active")) →
        stop_qr_session c u d st = (.failure "No active session found", st)) := by
  intro c u d st
  cases hfind : st.find? (isOwnedActiveFor c u d) with
  | none =>
    have hall := List.find?_eq_none.mp hfind
    constructor
    · constructor
      · rintro ⟨n, ss, habs⟩
        simp only [stop_qr_session, hfind] at habs
        simp at habs
      · rintro ⟨s, hsmem, h1, h2, h3, h4⟩
        exact absurd (isOwnedActiveFor_of h1 h2 h3 h4) (by simpa using hall s hsmem)
    · intro _
      simp only [stop_qr_session, hfind]
  | some s =>
    have hmem := List.mem_of_find?_eq_some hfind
    obtain ⟨h1, h2, h3, h4⟩ := isOwnedActiveFor_spec (List.find?_some hfind)
    constructor
    · constructor
      · intro _
        exact ⟨s, hmem, h1, h2, h3, h4⟩
      · intro _
        refine ⟨s.scanned_students.length, s.scanned_students, ?_⟩
        simp only [stop_qr_session, hfind]
    · intro hno
      exact absurd ⟨h1, h2, h3, h4⟩ (hno s hmem)

/-- C9 witness: the owner "T1" stopping `session0` receives the scan
summary; an attempt by "T2" fails with "No active session found" and
the table is unchanged. -/
theorem c9_witness :
    (∃ n ss, (stop_qr_session 1 "T1" "2024-01-15" [session0]).1 = .summary n ss) ∧
    stop_qr_session 1 "T2" "2024-01-15" [session0] =
      (.failure "No active session found", [session0]) :=
  ⟨(c9_stop_ownership 1 "T1" "2024-01-15" [session0]).1.mpr
      ⟨session0, by simp, rfl, rfl, rfl, rfl⟩,
   (c9_stop_ownership 1 "T2" "2024-01-15" [session0]).2 (by decide)⟩

/-- C5 counterexample: two unrecognized-shape inputs that do not
degrade to the all-zero record.  The bare string `"X"` is not one of
the codes `P`/`A`/`L`, yet the parser returns total 1, not the zero
record; and a dict whose `"sessions"` value is not iterable raises
`TypeError` instead of returning at all. -/
theorem c5_counterexample_unrecognized :
    parse_attendance_value (.str "X") = .ok ⟨.int 0, .int 0, .int 0, .int 1⟩ ∧
    parse_attendance_value (.dict [("sessions", .int 1)]) =
      .error "TypeError: object is not iterable" :=
  ⟨rfl, rfl⟩

/-- C5 (amended): inputs not matching the three recognized shapes split
into three behaviours: falsy values, numbers, booleans, lists, and
dicts carrying neither a `"sessions"` nor a `"status"` key all return
the all-zero record without raising; a truthy string other than
`"P"`/`"A"`/`"L"` returns `{present 0, absent 0, late 0, total 1}`;
and a dict whose `"sessions"` value is not iterable, or whose iterated
entries are not dicts, raises (`TypeError`/`AttributeError`). -/
theorem c5_unrecognized_fallback :
    (parse_attendance_value .none = .ok zeroCounts) ∧
    (∀ b, parse_attendance_value (.bool b) = .ok zeroCounts) ∧
    (∀ n, parse_attendance_value (.int n) = .ok zeroCounts) ∧
    (∀ xs, parse_attendance_value (.list xs) = .ok zeroCounts) ∧
    (∀ es, dictLookup es "sessions" = none → dictLookup es "status" = none →
      parse_attendance_value (.dict es) = .ok zeroCounts) ∧
    (∀ s, s ≠ "" → s ≠ "P" → s ≠ "A" → s ≠ "L" →
      parse_attendance_value (.str s) = .ok ⟨.int 0, .int 0, .int 0, .int 1⟩) := by
  refine ⟨rfl, ?_, ?_, ?_, ?_, ?_⟩
  · intro b
    cases b <;> rfl
  · intro n
    unfold parse_attendance_value
    split <;> rfl
  · intro xs
    unfold parse_attendance_value
    split <;> rfl
  · intro es h1 h2
    unfold parse_attendance_value
    split
    · rfl
    · simp only [h1, h2]
  · intro s h1 h2 h3 h4
    unfold parse_attendance_value
    rw [if_neg (by simp [pyTruthy, h1])]
    simp only [beq_iff_eq, h2, h3, h4, if_false]

/-- C5 amended-claim witness: a status-free, sessions-free dict falls
back to the zero record, and the truthy string `"Q"` yields total 1. -/
theorem c5_witness :
    parse_attendance_value (.dict [("note", .str "skip")]) = .ok zeroCounts ∧
    parse_attendance_value (.str "Q") = .ok ⟨.int 0, .int 0, .int 0, .int 1⟩ :=
  ⟨c5_unrecognized_fallback.2.2.2.2.1 [("note", .str "skip")] rfl rfl,
   c5_unrecognized_fallback.2.2.2.2.2 "Q" (by decide) (by decide) (by decide) (by decide)⟩

/-- C6: the three historical encodings of a single present mark — the
bare string, the counted-legacy dict with count 1, and the one-entry
sessions list — normalize identically to one present out of one total. -/
theorem c6_three_encodings_agree :
    parse_attendance_value (.str "P") = .ok ⟨.int 1, .int 0, .int 0, .int 1⟩ ∧
    parse_attendance_value (.dict [("status", .str "P"), ("count", .int 1)]) =
      .ok ⟨.int 1, .int 0, .int 0, .int 1⟩ ∧
    parse_attendance_value (.dict [("sessions", .list [.dict [("status", .str "P")]])]) =
      .ok ⟨.int 1, .int 0, .int 0, .int 1⟩ :=
  ⟨rfl, rfl, rfl⟩

/-- C8: for the three-student roster whose parsed sums are (9,1,10),
(5,5,10) and (10,0,10) with thresholds 95/90/85, `get_student_stats`
classifies the students good (90%), at-risk (50%) and excellent (100%),
and `calculate_class_statistics_from_data` reports the class average
(9+5+10)/30*100 = 80 (rounded to two decimal places). -/
theorem c8_aggregation_correctness :
    get_student_stats (historyPA 9 1) (some ⟨95, 90, 85⟩) = ⟨10, 9, 1, 0, 90, "good"⟩ ∧
    get_student_stats (historyPA 5 5) (some ⟨95, 90, 85⟩) = ⟨10, 5, 5, 0, 50, "at-risk"⟩ ∧
    get_student_stats (historyPA 10 0) (some ⟨95, 90, 85⟩) =
      ⟨10, 10, 0, 0, 100, "excellent"⟩ ∧
    calculate_class_statistics_from_data
      ⟨[⟨historyPA 9 1⟩, ⟨historyPA 5 5⟩, ⟨historyPA 10 0⟩], some ⟨95, 90, 85⟩⟩ =
      .ok ⟨3, 80, 1, 1, 24, 6, 0, 30⟩ := by
  have h1 : sumAttendance (0, 0, 0, 0) (historyPA 9 1) = .ok (9, 1, 0, 10) := rfl
  have h2 : sumAttendance (0, 0, 0, 0) (historyPA 5 5) = .ok (5, 5, 0, 10) := rfl
  have h3 : sumAttendance (0, 0, 0, 0) (historyPA 10 0) = .ok (10, 0, 0, 10) := rfl
  refine ⟨?_, ?_, ?_, ?_⟩
  · simp only [get_student_stats, h1]
    norm_num [pyRound2]
  · simp only [get_student_stats, h2]
    norm_num [pyRound2]
  · simp only [get_student_stats, h3]
    norm_num [pyRound2]
  · simp only [calculate_class_statistics_from_data, classFold, h1, h2, h3]
    norm_num [pyRound2]

theorem pyEqStr_ite_sum_le_one (v : PyValue) :
    (if pyEqStr v "P" then (1 : Int) else 0) + (if pyEqStr v "A" then 1 else 0) +
      (if pyEqStr v "L" then 1 else 0) ≤ 1 := by
  cases v with
  | str u =>
    simp only [pyEqStr, beq_iff_eq]
    by_cases h1 : u = "P"
    · subst h1; decide
    · by_cases h2 : u = "A"
      · subst h2; decide
      · by_cases h3 : u = "L"
        · subst h3; decide
        · simp [h1, h2, h3]
  | none => norm_num [pyEqStr]
  | bool b => norm_num [pyEqStr]
  | int n => norm_num [pyEqStr]
  | list xs => norm_num [pyEqStr]
  | dict es => norm_num [pyEqStr]

/-- The sessions loop keeps the counters non-negative and the bucket
sum bounded by the total: each entry adds one to the total and at most
one to exactly one bucket. -/
theorem sessionsFold_bounds :
    ∀ (items : List PyValue) (p a l t p2 a2 l2 t2 : Int),
      sessionsFold (p, a, l, t) items = .ok (p2, a2, l2, t2) →
      0 ≤ p → 0 ≤ a → 0 ≤ l → p + a + l ≤ t →
      0 ≤ p2 ∧ 0 ≤ a2 ∧ 0 ≤ l2 ∧ p2 + a2 + l2 ≤ t2 := by
  intro items
  induction items with
  | nil =>
    intro p a l t p2 a2 l2 t2 hfold hp ha hl ht
    simp only [sessionsFold, Except.ok.injEq, Prod.mk.injEq] at hfold
    obtain ⟨rfl, rfl, rfl, rfl⟩ := hfold
    exact ⟨hp, ha, hl, ht⟩
  | cons s rest ih =>
    intro p a l t p2 a2 l2 t2 hfold hp ha hl ht
    cases s with
    | dict es =>
      simp only [sessionsFold] at hfold
      by_cases hts : pyTruthy ((dictLookup es "status").getD .none)
      · rw [if_pos hts] at hfold
        have hsum := pyEqStr_ite_sum_le_one ((dictLookup es "status").getD .none)
        have e1 : (0:Int) ≤
            if pyEqStr ((dictLookup es "status").getD .none) "P" then 1 else 0 := by
          split <;> norm_num
        have e2 : (0:Int) ≤
            if pyEqStr ((dictLookup es "status").getD .none) "A" then 1 else 0 := by
          split <;> norm_num
        have e3 : (0:Int) ≤
            if pyEqStr ((dictLookup es "status").getD .none) "L" then 1 else 0 := by
          split <;> norm_num
        exact ih _ _ _ _ _ _ _ _ hfold (by omega) (by omega) (by omega) (by omega)
      · rw [if_neg hts] at hfold
        exact ih _ _ _ _ _ _ _ _ hfold hp ha hl ht
    | none => simp [sessionsFold] at hfold
    | bool b => simp [sessionsFold] at hfold
    | int n => simp [sessionsFold] at hfold
    | str s2 => simp [sessionsFold] at hfold
    | list xs => simp [sessionsFold] at hfold

/-- C10: assuming any `count` field present is a non-negative integer,
every record returned by `parse_attendance_value` has four non-negative
integer fields satisfying present + absent + late ≤ total; the
inequality is strict for some inputs — here a sessions entry whose
truthy status `"X"` is outside P/A/L increments the total only. -/
theorem c10_parse_bounds :
    (∀ (v : PyValue) (r : AttendanceCounts), CountHyp v →
      parse_attendance_value v = .ok r →
      ∃ p a l t : Int, r = ⟨.int p, .int a, .int l, .int t⟩ ∧
        0 ≤ p ∧ 0 ≤ a ∧ 0 ≤ l ∧ 0 ≤ t ∧ p + a + l ≤ t) ∧
    parse_attendance_value (.dict [("sessions", .list [.dict [("status", .str "X")]])]) =
      .ok ⟨.int 0, .int 0, .int 0, .int 1⟩ := by
  constructor
  · intro v r hcount hparse
    unfold parse_attendance_value at hparse
    by_cases htr : pyTruthy v = false
    · rw [if_pos htr] at hparse
      injection hparse with h
      subst h
      exact ⟨0, 0, 0, 0, rfl, by norm_num, by norm_num, by norm_num, by norm_num,
        by norm_num⟩
    · rw [if_neg htr] at hparse
      cases v with
      | dict es =>
        cases hsv : dictLookup es "sessions" with
        | some sv =>
          simp only [hsv] at hparse
          cases hit : pyIter sv with
          | error e => simp only [hit] at hparse; simp at hparse
          | ok items =>
            simp only [hit] at hparse
            cases hfold : sessionsFold (0, 0, 0, 0) items with
            | error e => simp only [hfold] at hparse; simp at hparse
            | ok quad =>
              obtain ⟨p, a, l, t⟩ := quad
              simp only [hfold] at hparse
              injection hparse with h
              subst h
              have hb := sessionsFold_bounds items 0 0 0 0 p a l t hfold (le_refl 0)
                (le_refl 0) (le_refl 0) (by norm_num)
              exact ⟨p, a, l, t, rfl, hb.1, hb.2.1, hb.2.2.1, by omega, hb.2.2.2⟩
        | none =>
          cases hst : dictLookup es "status" with
          | some stv =>
            simp only [hsv, hst] at hparse
            cases hcv : dictLookup es "count" with
            | some cv =>
              obtain ⟨n, hn0, rfl⟩ := hcount cv hcv
              simp only [hcv, Option.getD_some] at hparse
              split at hparse
              · injection hparse with h
                subst h
                exact ⟨n, 0, 0, n, rfl, hn0, le_refl 0, le_refl 0, hn0, by omega⟩
              · split at hparse
                · injection hparse with h
                  subst h
                  exact ⟨0, n, 0, n, rfl, le_refl 0, hn0, le_refl 0, hn0, by omega⟩
                · split at hparse
                  · injection hparse with h
                    subst h
                    exact ⟨0, 0, n, n, rfl, le_refl 0, le_refl 0, hn0, hn0, by omega⟩
                  · injection hparse with h
                    subst h
                    exact ⟨0, 0, 0, n, rfl, le_refl 0, le_refl 0, le_refl 0, hn0,
                      by omega⟩
            | none =>
              simp only [hcv, Option.getD_none] at hparse
              split at hparse
              · injection hparse with h
                subst h
                exact ⟨1, 0, 0, 1, rfl, by norm_num, by norm_num, by norm_num,
                  by norm_num, by norm_num⟩
              · split at hparse
                · injection hparse with h
                  subst h
                  exact ⟨0, 1, 0, 1, rfl, by norm_num, by norm_num, by norm_num,
                    by norm_num, by norm_num⟩
                · split at hparse
                  · injection hparse with h
                    subst h
                    exact ⟨0, 0, 1, 1, rfl, by norm_num, by norm_num, by norm_num,
                      by norm_num, by norm_num⟩
                  · injection hparse with h
                    subst h
                    exact ⟨0, 0, 0, 1, rfl, by norm_num, by norm_num, by norm_num,
                      by norm_num, by norm_num⟩
          | none =>
            simp only [hsv, hst] at hparse
            injection hparse with h
            subst h
            exact ⟨0, 0, 0, 0, rfl, by norm_num, by norm_num, by norm_num, by norm_num,
              by norm_num⟩
      | str s2 =>
        dsimp only at hparse
        split at hparse
        · injection hparse with h
          subst h
          exact ⟨1, 0, 0, 1, rfl, by norm_num, by norm_num, by norm_num, by norm_num,
            by norm_num⟩
        · split at hparse
          · injection hparse with h
            subst h
            exact ⟨0, 1, 0, 1, rfl, by norm_num, by norm_num, by norm_num, by norm_num,
              by norm_num⟩
          · split at hparse
            · injection hparse with h
              subst h
              exact ⟨0, 0, 1, 1, rfl, by norm_num, by norm_num, by norm_num,
                by norm_num, by norm_num⟩
            · injection hparse with h
              subst h
              exact ⟨0, 0, 0, 1, rfl, by norm_num, by norm_num, by norm_num,
                by norm_num, by norm_num⟩
      | none => exact absurd rfl htr
      | bool b =>
        dsimp only at hparse
        injection hparse with h
        subst h
        exact ⟨0, 0, 0, 0, rfl, by norm_num, by norm_num, by norm_num, by norm_num,
          by norm_num⟩
      | int n =>
        dsimp only at hparse
        injection hparse with h
        subst h
        exact ⟨0, 0, 0, 0, rfl, by norm_num, by norm_num, by norm_num, by norm_num,
          by norm_num⟩
      | list xs =>
        dsimp only at hparse
        injection hparse with h
        subst h
        exact ⟨0, 0, 0, 0, rfl, by norm_num, by norm_num, by norm_num, by norm_num,
          by norm_num⟩
  · rfl

/-- C10 witness: the counted-legacy record `{"status": "P", "count": 2}`
satisfies the count hypothesis and its parsed record meets the bounds. -/
theorem c10_witness :
    CountHyp (.dict [("status", .str "P"), ("count", .int 2)]) ∧
    ∃ p a l t : Int,
      (⟨.int 2, .int 0, .int 0, .int 2⟩ : AttendanceCounts) =
        ⟨.int p, .int a, .int l, .int t⟩ ∧
      0 ≤ p ∧ 0 ≤ a ∧ 0 ≤ l ∧ 0 ≤ t ∧ p + a + l ≤ t := by
  have hc : CountHyp (.dict [("status", .str "P"), ("count", .int 2)]) := by
    intro cv hcv
    exact ⟨2, by norm_num, (Option.some.inj hcv).symm⟩
  exact ⟨hc, c10_parse_bounds.1 _ _ hc rfl⟩

end AttendSheets
